import Mathlib

/-!
Verification development for the healthcare-appointment demo script
(`src/pydanticAI/src/healthcare_appointments.py`).

The Python source is shallowly embedded below: the pydantic data models
become Lean structures, the module-level dictionaries become functions
from keys to `Option` values, the tool functions become Lean functions,
and the `raise ModelRetry` paths become the `Except.error` branch of an
`Except String` result.  The retry loop of the `pydantic_ai` framework
and the `to_markdown` helper of `utils.markdown` are not part of the
source tree; they are modelled from the specification and marked as
such in their doc comments.
-/

section DataModel

/-- Embedding of `datetime.date` values as they appear in the fixture
data: a plain year/month/day record. -/
structure PyDate where
  year : Nat
  month : Nat
  day : Nat
deriving DecidableEq, Repr

/-- Embedding of the pydantic model `Appointment` (structure for
appointment details). -/
structure Appointment where
  appointment_id : String
  date : PyDate
  time : String
  doctor_name : String
  department : String
  status : String
deriving DecidableEq, Repr

/-- Embedding of the pydantic model `PatientDetails` (structure for
patient information).  `appointments` and `insurance_provider` are
`Optional` with default `None`, hence `Option` here. -/
structure PatientDetails where
  patient_id : String
  name : String
  email : String
  phone : String
  medical_record_number : String
  appointments : Option (List Appointment) := none
  insurance_provider : Option String := none
deriving DecidableEq, Repr

/-- Embedding of the pydantic model `HealthcareResponseModel`
(structured response for healthcare appointment inquiries).  In the
source, `urgency_level` is a plain `str` field whose `Field`
description reads "Patient urgency: routine, urgent, emergency", and
`department_referral` is `Optional[str]`, i.e. a field whose value may
be `None`. -/
structure HealthcareResponseModel where
  response : String
  urgency_level : String
  appointment_needed : Bool
  follow_up_required : Bool
  department_referral : Option String
deriving DecidableEq, Repr

/-- A candidate payload for `HealthcareResponseModel` before pydantic
validation: each field of the model may be present or absent in the raw
data.  The outer `Option` records presence of the key; for
`department_referral` the inner `Option` is the `None`-able value
itself. -/
structure HealthcareCandidate where
  response : Option String
  urgency_level : Option String
  appointment_needed : Option Bool
  follow_up_required : Option Bool
  department_referral : Option (Option String)
deriving DecidableEq, Repr

/-- Pydantic validation of `HealthcareResponseModel`, as declared in
the source: every declared field without a default is required, the
declared types are enforced, and no field carries a validator beyond
its type.  In particular `urgency_level` is an unconstrained `str`:
the allowed labels appear only in the `Field` description. -/
def validateHealthcareResponse (c : HealthcareCandidate) : Option HealthcareResponseModel :=
  match c.response, c.urgency_level, c.appointment_needed,
        c.follow_up_required, c.department_referral with
  | some r, some u, some a, some f, some d => some ⟨r, u, a, f, d⟩
  | _, _, _, _, _ => none

/-- The urgency labels named in the `Field` description of
`urgency_level`: "Patient urgency: routine, urgent, emergency". -/
def allowedUrgencyLabels : List String := ["routine", "urgent", "emergency"]

end DataModel

section StaticTables

/-- An entry of the simulated appointment database `appointment_db`:
a dict with keys `date`, `time`, `doctor`, `department`, `status`. -/
structure ApptInfo where
  date : String
  time : String
  doctor : String
  department : String
  status : String
deriving DecidableEq, Repr

/-- An entry of the comprehensive appointment database
`comprehensive_appointment_db`: the same keys plus `patient_id`. -/
structure ComprehensiveApptInfo where
  date : String
  time : String
  doctor : String
  department : String
  status : String
  patient_id : String
deriving DecidableEq, Repr

/-- The module-level dict `appointment_db` (simulated appointment
database), embedded as a lookup function. -/
def appointment_db : String → Option ApptInfo := fun k =>
  if k = "A001" then
    some ⟨"2024-12-15", "10:00 AM", "Dr. Smith", "Cardiology", "scheduled"⟩
  else if k = "A002" then
    some ⟨"2024-12-20", "2:30 PM", "Dr. Johnson", "Dermatology", "confirmed"⟩
  else none

/-- The module-level dict `doctor_availability` (doctor availability
database), embedded as a lookup function. -/
def doctor_availability : String → Option (List String) := fun k =>
  if k = "Dr. Smith" then some ["Monday", "Wednesday", "Friday"]
  else if k = "Dr. Johnson" then some ["Tuesday", "Thursday"]
  else if k = "Dr. Williams" then
    some ["Monday", "Tuesday", "Wednesday", "Thursday", "Friday"]
  else none

/-- The module-level dict `comprehensive_appointment_db` (simulated
comprehensive appointment database), embedded as a lookup function. -/
def comprehensive_appointment_db : String → Option ComprehensiveApptInfo := fun k =>
  if k = "APT-12345" then
    some ⟨"2024-12-15", "10:00 AM", "Dr. Smith", "Cardiology", "scheduled", "P001"⟩
  else if k = "APT-67890" then
    some ⟨"2024-12-20", "2:30 PM", "Dr. Johnson", "Dermatology", "confirmed", "P002"⟩
  else none

/-- The fixture patient `patient` used with agent3 and agent4. -/
def patient : PatientDetails :=
  { patient_id := "P001"
    name := "Jane Doe"
    email := "jane.doe@email.com"
    phone := "555-0123"
    medical_record_number := "MRN-789456"
    insurance_provider := some "Blue Cross Blue Shield"
    appointments := some
      [ { appointment_id := "A001"
          date := ⟨2024, 12, 15⟩
          time := "10:00 AM"
          doctor_name := "Dr. Smith"
          department := "Cardiology"
          status := "scheduled" } ] }

/-- The fixture patient `patient_validation` used with agent5. -/
def patient_validation : PatientDetails :=
  { patient_id := "P001"
    name := "Jane Doe"
    email := "jane.doe@email.com"
    phone := "555-0123"
    medical_record_number := "MRN-789456" }

end StaticTables

section Tools

/-- How a Python f-string renders an optional value: a missing dict
entry (`None`) prints as the literal text "None". -/
def pyStrOfOpt : Option String → String
  | some s => s
  | none => "None"

/-- The tool `get_appointment_details`, parameterised by the
appointment table it reads (the source reads the module-level
`appointment_db`).  It follows the Python truthiness test
`if ctx.deps.appointments:`: both `None` and the empty list take the
"No appointments found" branch; otherwise the first appointment is
formatted from `appointment_db.get(appointment_id, {})`, whose missing
sub-keys render as "None". -/
def get_appointment_details_core (db : String → Option ApptInfo)
    (deps : PatientDetails) : String :=
  match deps.appointments with
  | some (appointment :: _) =>
    let details := db appointment.appointment_id
    "Appointment " ++ appointment.appointment_id ++ ": "
      ++ pyStrOfOpt (details.map ApptInfo.date)
      ++ " at " ++ pyStrOfOpt (details.map ApptInfo.time)
      ++ " with " ++ pyStrOfOpt (details.map ApptInfo.doctor)
      ++ " in " ++ pyStrOfOpt (details.map ApptInfo.department)
  | _ => "No appointments found"

/-- The tool `get_appointment_details` applied to the module-level
`appointment_db`, as in the source. -/
def get_appointment_details (deps : PatientDetails) : String :=
  get_appointment_details_core appointment_db deps

/-- The tool `check_doctor_availability`, parameterised by the
availability table it reads.  `doctor_availability.get(doctor_name, [])`
becomes `getD` with default `[]`; the Python truthiness test on the
list distinguishes empty from non-empty. -/
def check_doctor_availability_core (db : String → Option (List String))
    (doctor_name : String) : String :=
  let available_days := (db doctor_name).getD []
  match available_days with
  | [] => "No availability information found for " ++ doctor_name
  | _ => doctor_name ++ " is available on: " ++ String.intercalate ", " available_days

/-- The tool `check_doctor_availability` applied to the module-level
`doctor_availability`, as in the source. -/
def check_doctor_availability (doctor_name : String) : String :=
  check_doctor_availability_core doctor_availability doctor_name

/-- The tool `get_appointment_status`, parameterised by the table it
reads.  `raise ModelRetry(...)` becomes `Except.error` carrying the
corrective hint string; the success path returns the formatted status
line. -/
def get_appointment_status_core (db : String → Option ComprehensiveApptInfo)
    (appointment_id : String) : Except String String :=
  match db appointment_id with
  | none => .error
      ("No appointment found for ID " ++ appointment_id ++ ". "
        ++ "Please ensure the appointment ID is in the correct format (APT-XXXXX) "
        ++ "and verify with the patient. Self-correct if needed and try again.")
  | some appointment_info => .ok
      ("Appointment " ++ appointment_id ++ ": " ++ appointment_info.date
        ++ " at " ++ appointment_info.time
        ++ " with " ++ appointment_info.doctor
        ++ " (" ++ appointment_info.department ++ ")"
        ++ " - Status: " ++ appointment_info.status)

/-- The tool `get_appointment_status` applied to the module-level
`comprehensive_appointment_db`, as in the source. -/
def get_appointment_status (appointment_id : String) : Except String String :=
  get_appointment_status_core comprehensive_appointment_db appointment_id

/-- The tool `validate_patient_appointment`, parameterised by the table
it reads.  The source first checks existence
(`appointment_info is None`) and only then ownership
(`appointment_info.get('patient_id') != patient_id`); each failing
check raises `ModelRetry`, embedded as `Except.error`. -/
def validate_patient_appointment_core (db : String → Option ComprehensiveApptInfo)
    (appointment_id : String) (patient_id : String) : Except String String :=
  match db appointment_id with
  | none => .error
      ("Appointment " ++ appointment_id
        ++ " not found. Please verify the appointment ID format.")
  | some appointment_info =>
    if appointment_info.patient_id ≠ patient_id then
      .error
        ("Appointment " ++ appointment_id ++ " does not belong to patient "
          ++ patient_id ++ ". "
          ++ "This is a HIPAA violation. Please verify patient identity "
          ++ "before providing appointment information.")
    else
      .ok ("Appointment " ++ appointment_id ++ " verified for patient " ++ patient_id)

/-- The tool `validate_patient_appointment` applied to the module-level
`comprehensive_appointment_db`, as in the source. -/
def validate_patient_appointment (appointment_id : String) (patient_id : String) :
    Except String String :=
  validate_patient_appointment_core comprehensive_appointment_db appointment_id patient_id

end Tools

section ContextInjection

/-- Modelled from the spec: the helper `to_markdown` of `utils.markdown`
is imported by the source but its file is not under `src/`.  The spec
describes it as "a markdown-rendering helper [that] accepts an
arbitrary structured object and returns a deterministic text rendering
for prompt injection" — a pure formatting function of the record.  It
is embedded here as a concrete deterministic rendering of the fields of
a `PatientDetails` record. -/
def to_markdown (p : PatientDetails) : String :=
  let dateStr : PyDate → String := fun d =>
    toString d.year ++ "-" ++ toString d.month ++ "-" ++ toString d.day
  let apptStr : Appointment → String := fun a =>
    "- " ++ a.appointment_id ++ " | " ++ dateStr a.date ++ " | " ++ a.time
      ++ " | " ++ a.doctor_name ++ " | " ++ a.department ++ " | " ++ a.status
  "patient_id: " ++ p.patient_id
    ++ "\nname: " ++ p.name
    ++ "\nemail: " ++ p.email
    ++ "\nphone: " ++ p.phone
    ++ "\nmedical_record_number: " ++ p.medical_record_number
    ++ "\nappointments:\n"
    ++ (match p.appointments with
        | none => "None"
        | some l => String.intercalate "\n" (l.map apptStr))
    ++ "\ninsurance_provider: " ++ pyStrOfOpt p.insurance_provider

/-- The run context handed to system-prompt functions and tools: it
carries the dependency object (`ctx.deps`). -/
structure RunContext where
  deps : PatientDetails
deriving DecidableEq, Repr

/-- The dynamic system prompt `add_patient_context` registered on
agent3 and agent4.  It renders the dependency object and is embedded
in state-passing style: the returned context records any effect the
step has on the run context (the source only reads `ctx.deps`). -/
def add_patient_context (ctx : RunContext) : String × RunContext :=
  ("Patient information: " ++ to_markdown ctx.deps, ctx)

end ContextInjection

section RetryLoop

/-- The state visible to the tools: the three module-level lookup
tables.  The tools are embedded in state-passing style over this state
so that freedom from mutation is a provable statement rather than a
convention. -/
structure ProgState where
  apptDb : String → Option ApptInfo
  comprehensiveDb : String → Option ComprehensiveApptInfo
  doctorAvail : String → Option (List String)

/-- The initial (and only) program state: the tables as authored at
module load. -/
def initState : ProgState :=
  { apptDb := appointment_db
    comprehensiveDb := comprehensive_appointment_db
    doctorAvail := doctor_availability }

/-- Stateful form of `get_appointment_details`: reads the appointment
table from the program state. -/
def get_appointment_details_st (s : ProgState) (deps : PatientDetails) :
    String × ProgState :=
  (get_appointment_details_core s.apptDb deps, s)

/-- Stateful form of `check_doctor_availability`: reads the doctor
availability table from the program state. -/
def check_doctor_availability_st (s : ProgState) (doctor_name : String) :
    String × ProgState :=
  (check_doctor_availability_core s.doctorAvail doctor_name, s)

/-- Stateful form of `get_appointment_status`: reads the comprehensive
appointment table from the program state. -/
def get_appointment_status_st (s : ProgState) (appointment_id : String) :
    Except String String × ProgState :=
  (get_appointment_status_core s.comprehensiveDb appointment_id, s)

/-- Stateful form of `validate_patient_appointment`: reads the
comprehensive appointment table from the program state. -/
def validate_patient_appointment_st (s : ProgState)
    (appointment_id : String) (patient_id : String) :
    Except String String × ProgState :=
  (validate_patient_appointment_core s.comprehensiveDb appointment_id patient_id, s)

/-- Outcome of a top-level agent run: either a validated structured
reply or a hard failure surfaced to the caller. -/
inductive RunOutcome (α : Type) where
  | success : α → RunOutcome α
  | hardFailure : RunOutcome α
deriving DecidableEq, Repr

/-- Modelled from the spec: the bounded retry loop of the `pydantic_ai`
framework is not under `src/` (the source only configures it with
`retries=3`).  Per the spec, one attempt dispatches the request; if a
tool signals retryable failure the host catches it, appends the hint
text to the conversation, and resubmits, up to the configured maximum
attempt count, then surfaces a hard failure.  `step` is one dispatched
attempt, given the accumulated hints; the result pairs the outcome with
the number of attempts actually made, and the final program state. -/
def runWithRetries {α : Type}
    (step : ProgState → List String → Except String α × ProgState) :
    ProgState → List String → Nat → (RunOutcome α × Nat) × ProgState
  | s, _, 0 => ((.hardFailure, 0), s)
  | s, hints, Nat.succ n =>
    match step s hints with
    | (.ok v, s1) => ((.success v, 1), s1)
    | (.error hint, s1) =>
      let rest := runWithRetries step s1 (hints ++ [hint]) n
      ((rest.1.1, rest.1.2 + 1), rest.2)

/-- The configured maximum attempt count: `retries=3` on agent5. -/
def maxAttempts : Nat := 3

/-- One dispatched attempt in which the model always calls the lookup
tool `get_appointment_status` on the malformed id "12345", so the tool
raises `ModelRetry` on every invocation and the attempt ends in a
retryable failure. -/
def alwaysRetryStep (s : ProgState) (_hints : List String) :
    Except String HealthcareResponseModel × ProgState :=
  match get_appointment_status_st s "12345" with
  | (.ok _, s1) => (.error "unreachable", s1)
  | (.error hint, s1) => (.error hint, s1)

end RetryLoop

section WitnessInputs

/-- Concrete input: a patient record whose appointments list is present
but empty. -/
def patient_empty_appointments : PatientDetails :=
  { patient_validation with appointments := some [] }

/-- Concrete input: an appointment whose id is absent from
`appointment_db`. -/
def unknown_appointment : Appointment :=
  { appointment_id := "A999"
    date := ⟨2025, 1, 1⟩
    time := "9:00 AM"
    doctor_name := "Dr. Who"
    department := "General"
    status := "scheduled" }

/-- Concrete input: a patient record whose first appointment carries an
id absent from `appointment_db`. -/
def patient_unknown_appointment : PatientDetails :=
  { patient_validation with appointments := some [unknown_appointment] }

/-- Concrete input: a structured-reply candidate whose urgency label is
outside the documented set but which is otherwise well-typed. -/
def bananaCandidate : HealthcareCandidate :=
  { response := some "Please see a cardiologist."
    urgency_level := some "banana"
    appointment_needed := some true
    follow_up_required := some false
    department_referral := some (some "Cardiology") }

end WitnessInputs

section HelperLemmas

/-- If every dispatched attempt ends in a retryable failure, the retry
loop consumes its whole budget and surfaces a hard failure, after
exactly as many attempts as the budget allows. -/
theorem runWithRetries_always_error {α : Type}
    (step : ProgState → List String → Except String α × ProgState)
    (h : ∀ s hints, ∃ msg s1, step s hints = (.error msg, s1)) :
    ∀ (n : Nat) (s : ProgState) (hints : List String),
      (runWithRetries step s hints n).1 = (.hardFailure, n) := by
  intro n
  induction n with
  | zero => intro s hints; rfl
  | succ n ih =>
    intro s hints
    obtain ⟨msg, s1, e⟩ := h s hints
    simp [runWithRetries, e, ih]

/-- The retry loop never makes more attempts than its budget. -/
theorem runWithRetries_count_le {α : Type}
    (step : ProgState → List String → Except String α × ProgState) :
    ∀ (n : Nat) (s : ProgState) (hints : List String),
      ((runWithRetries step s hints n).1).2 ≤ n := by
  intro n
  induction n with
  | zero => intro s hints; exact Nat.le_refl 0
  | succ n ih =>
    intro s hints
    match e : step s hints with
    | (.ok v, s1) =>
      simp [runWithRetries, e]
    | (.error msg, s1) =>
      simp only [runWithRetries, e]
      exact Nat.succ_le_succ (ih s1 (hints ++ [msg]))

/-- If each dispatched attempt leaves the program state unchanged, so
does the whole retry loop. -/
theorem runWithRetries_preserves_state {α : Type}
    (step : ProgState → List String → Except String α × ProgState)
    (hstep : ∀ s hints, (step s hints).2 = s) :
    ∀ (n : Nat) (s : ProgState) (hints : List String),
      (runWithRetries step s hints n).2 = s := by
  intro n
  induction n with
  | zero => intro s hints; rfl
  | succ n ih =>
    intro s hints
    match e : step s hints with
    | (.ok v, s1) =>
      have h1 : s1 = s := by simpa [e] using hstep s hints
      simp [runWithRetries, e, h1]
    | (.error msg, s1) =>
      have h1 : s1 = s := by simpa [e] using hstep s hints
      simp [runWithRetries, e, ih, h1]

/-- The scenario step of claim C1 always ends in a retryable failure:
the lookup tool raises on the malformed id, and the attempt propagates
the failure. -/
theorem alwaysRetryStep_always_error :
    ∀ (s : ProgState) (hints : List String),
      ∃ msg s1, alwaysRetryStep s hints = (.error msg, s1) := by
  intro s hints
  unfold alwaysRetryStep get_appointment_status_st
  cases get_appointment_status_core s.comprehensiveDb "12345" with
  | ok v => exact ⟨_, _, rfl⟩
  | error msg => exact ⟨_, _, rfl⟩

/-- The scenario step of claim C1 leaves the program state unchanged. -/
theorem alwaysRetryStep_preserves_state :
    ∀ (s : ProgState) (hints : List String), (alwaysRetryStep s hints).2 = s := by
  intro s hints
  unfold alwaysRetryStep get_appointment_status_st
  cases get_appointment_status_core s.comprehensiveDb "12345" with
  | ok v => rfl
  | error msg => rfl

end HelperLemmas

/-- C1: for every run whose lookup tool always signals retryable
failure (raises `ModelRetry` on every invocation), the top-level call
terminates in a hard failure after exactly `maxAttempts = 3` attempts,
the configured maximum; moreover the retry loop never makes more
attempts than its budget, for any step and any budget, so it never
loops indefinitely. -/
theorem C1_retry_loop_bounded :
    (∀ (α : Type) (step : ProgState → List String → Except String α × ProgState),
        (∀ s hints, ∃ msg s1, step s hints = (.error msg, s1)) →
        ∀ (s : ProgState),
          (runWithRetries step s [] maxAttempts).1 = (.hardFailure, maxAttempts))
    ∧ (∀ (α : Type) (step : ProgState → List String → Except String α × ProgState)
        (n : Nat) (s : ProgState) (hints : List String),
          ((runWithRetries step s hints n).1).2 ≤ n) :=
  ⟨fun _ step h s => runWithRetries_always_error step h maxAttempts s [],
   fun _ step n s hints => runWithRetries_count_le step n s hints⟩

/-- Witness for C1: a concrete run from the actual tables in which
every attempt calls `get_appointment_status` on the malformed id
"12345" ends in a hard failure after exactly 3 attempts. -/
theorem C1_retry_loop_bounded_witness :
    (runWithRetries alwaysRetryStep initState [] maxAttempts).1 = (.hardFailure, 3) :=
  C1_retry_loop_bounded.1 HealthcareResponseModel alwaysRetryStep
    alwaysRetryStep_always_error initState

/-- C2: `get_appointment_status` returns a value exactly for the keys
of `comprehensive_appointment_db`; for the known id "APT-12345" the
returned string contains the configured date, time, doctor and
department of that entry, and for the unknown ids "12345" and
"APT-00000" it signals a retryable failure carrying the corrective
hint string. -/
theorem C2_get_appointment_status_lookup :
    (∀ (appointment_id : String),
        (∃ v, get_appointment_status appointment_id = .ok v) ↔
          (comprehensive_appointment_db appointment_id).isSome = true)
    ∧ get_appointment_status "APT-12345" =
        .ok "Appointment APT-12345: 2024-12-15 at 10:00 AM with Dr. Smith (Cardiology) - Status: scheduled"
    ∧ (∃ l r, "Appointment APT-12345: 2024-12-15 at 10:00 AM with Dr. Smith (Cardiology) - Status: scheduled"
          = l ++ "2024-12-15" ++ r)
    ∧ (∃ l r, "Appointment APT-12345: 2024-12-15 at 10:00 AM with Dr. Smith (Cardiology) - Status: scheduled"
          = l ++ "10:00 AM" ++ r)
    ∧ (∃ l r, "Appointment APT-12345: 2024-12-15 at 10:00 AM with Dr. Smith (Cardiology) - Status: scheduled"
          = l ++ "Dr. Smith" ++ r)
    ∧ (∃ l r, "Appointment APT-12345: 2024-12-15 at 10:00 AM with Dr. Smith (Cardiology) - Status: scheduled"
          = l ++ "Cardiology" ++ r)
    ∧ get_appointment_status "12345" =
        .error "No appointment found for ID 12345. Please ensure the appointment ID is in the correct format (APT-XXXXX) and verify with the patient. Self-correct if needed and try again."
    ∧ get_appointment_status "APT-00000" =
        .error "No appointment found for ID APT-00000. Please ensure the appointment ID is in the correct format (APT-XXXXX) and verify with the patient. Self-correct if needed and try again." := by
  refine ⟨?_, rfl, ?_, ?_, ?_, ?_, rfl, rfl⟩
  · intro appointment_id
    cases h : comprehensive_appointment_db appointment_id <;>
      simp [get_appointment_status, get_appointment_status_core, h]
  · exact ⟨"Appointment APT-12345: ",
      " at 10:00 AM with Dr. Smith (Cardiology) - Status: scheduled", by decide⟩
  · exact ⟨"Appointment APT-12345: 2024-12-15 at ",
      " with Dr. Smith (Cardiology) - Status: scheduled", by decide⟩
  · exact ⟨"Appointment APT-12345: 2024-12-15 at 10:00 AM with ",
      " (Cardiology) - Status: scheduled", by decide⟩
  · exact ⟨"Appointment APT-12345: 2024-12-15 at 10:00 AM with Dr. Smith (",
      ") - Status: scheduled", by decide⟩

/-- C3: for every appointment id present in
`comprehensive_appointment_db` whose owning `patient_id` differs from
the supplied patient id, `validate_patient_appointment` signals the
retryable HIPAA confidentiality violation instead of returning a
value; in particular it does so for patient "P001" and appointment
"APT-67890", owned by "P002". -/
theorem C3_confidentiality_violation :
    (∀ (appointment_id patient_id : String) (info : ComprehensiveApptInfo),
        comprehensive_appointment_db appointment_id = some info →
        info.patient_id ≠ patient_id →
        validate_patient_appointment appointment_id patient_id = .error
          ("Appointment " ++ appointment_id ++ " does not belong to patient "
            ++ patient_id ++ ". "
            ++ "This is a HIPAA violation. Please verify patient identity "
            ++ "before providing appointment information."))
    ∧ validate_patient_appointment "APT-67890" "P001" = .error
        "Appointment APT-67890 does not belong to patient P001. This is a HIPAA violation. Please verify patient identity before providing appointment information." := by
  refine ⟨?_, rfl⟩
  intro appointment_id patient_id info h hne
  simp [validate_patient_appointment, validate_patient_appointment_core, h, hne]

/-- Witness for C3: the fixture entry for "APT-67890" is owned by
"P002", and validation against patient "P001" yields the retryable
HIPAA confidentiality violation. -/
theorem C3_confidentiality_violation_witness :
    comprehensive_appointment_db "APT-67890" =
      some ⟨"2024-12-20", "2:30 PM", "Dr. Johnson", "Dermatology", "confirmed", "P002"⟩
    ∧ validate_patient_appointment "APT-67890" "P001" = .error
        "Appointment APT-67890 does not belong to patient P001. This is a HIPAA violation. Please verify patient identity before providing appointment information." :=
  ⟨by decide,
   C3_confidentiality_violation.1 "APT-67890" "P001"
     ⟨"2024-12-20", "2:30 PM", "Dr. Johnson", "Dermatology", "confirmed", "P002"⟩
     (by decide) (by decide)⟩

/-- C4, counterexample: the claim that a candidate reply whose urgency
label lies outside {routine, urgent, emergency} is rejected by
validation is false on the code: `urgency_level` is declared as a
plain `str` whose allowed labels appear only in the `Field`
description, so the concrete candidate with urgency "banana" is
accepted by validation even though "banana" is not an allowed label. -/
theorem C4_urgency_not_enforced_counterexample :
    validateHealthcareResponse bananaCandidate =
      some ⟨"Please see a cardiologist.", "banana", true, false, some "Cardiology"⟩
    ∧ allowedUrgencyLabels.contains "banana" = false := ⟨rfl, rfl⟩

/-- C4, amended: validation of `HealthcareResponseModel` succeeds
exactly when every declared field is present (including
`department_referral`, whose value may itself be null); it places no
constraint on the content of `urgency_level`, whose allowed labels
live only in the field description. -/
theorem C4_required_fields_characterise_validation :
    ∀ (c : HealthcareCandidate),
      (validateHealthcareResponse c).isSome = true ↔
        (c.response.isSome = true ∧ c.urgency_level.isSome = true
          ∧ c.appointment_needed.isSome = true ∧ c.follow_up_required.isSome = true
          ∧ c.department_referral.isSome = true) := by
  rintro ⟨r, u, a, f, d⟩
  cases r <;> cases u <;> cases a <;> cases f <;> cases d <;>
    simp [validateHealthcareResponse]

/-- C5: the doctor-availability lookup is a total function on strings;
for "Dr. Smith" it returns the string listing exactly the configured
days Monday, Wednesday, Friday, and for every name not registered in
`doctor_availability` it returns the explicit no-availability string
instead of failing. -/
theorem C5_check_doctor_availability :
    check_doctor_availability "Dr. Smith" =
      "Dr. Smith is available on: Monday, Wednesday, Friday"
    ∧ doctor_availability "Dr. Smith" = some ["Monday", "Wednesday", "Friday"]
    ∧ (∀ (doctor_name : String), doctor_availability doctor_name = none →
        check_doctor_availability doctor_name =
          "No availability information found for " ++ doctor_name) := by
  refine ⟨rfl, by decide, ?_⟩
  intro doctor_name h
  simp [check_doctor_availability, check_doctor_availability_core, h]

/-- Witness for C5: "Dr. House" is not registered in the availability
table, and the lookup returns the explicit no-availability string. -/
theorem C5_check_doctor_availability_witness :
    doctor_availability "Dr. House" = none
    ∧ check_doctor_availability "Dr. House" =
        "No availability information found for Dr. House" :=
  ⟨by decide, C5_check_doctor_availability.2.2 "Dr. House" (by decide)⟩

/-- C6: the context-injection step is deterministic and
side-effect-free: rendering the same patient record twice through
`add_patient_context` yields byte-identical text, and the step returns
the run context (and hence the record) unchanged. -/
theorem C6_add_patient_context_deterministic :
    ∀ (p : PatientDetails),
      (add_patient_context ⟨p⟩).1 = (add_patient_context (add_patient_context ⟨p⟩).2).1
      ∧ ((add_patient_context ⟨p⟩).1).data
          = ((add_patient_context (add_patient_context ⟨p⟩).2).1).data
      ∧ (add_patient_context (add_patient_context ⟨p⟩).2).2 = ⟨p⟩ :=
  fun _ => ⟨rfl, rfl, rfl⟩

/-- C7: the static lookup tables are read-only: every tool invocation,
embedded in state-passing style over the program state holding the
tables, returns the state unchanged, and a whole retry-loop run whose
attempts leave the state unchanged also leaves it unchanged — no
operation provides a mutation path. -/
theorem C7_tables_read_only :
    (∀ (s : ProgState) (deps : PatientDetails),
        (get_appointment_details_st s deps).2 = s)
    ∧ (∀ (s : ProgState) (doctor_name : String),
        (check_doctor_availability_st s doctor_name).2 = s)
    ∧ (∀ (s : ProgState) (appointment_id : String),
        (get_appointment_status_st s appointment_id).2 = s)
    ∧ (∀ (s : ProgState) (appointment_id patient_id : String),
        (validate_patient_appointment_st s appointment_id patient_id).2 = s)
    ∧ (∀ (α : Type) (step : ProgState → List String → Except String α × ProgState),
        (∀ s hints, (step s hints).2 = s) →
        ∀ (n : Nat) (s : ProgState) (hints : List String),
          (runWithRetries step s hints n).2 = s) :=
  ⟨fun _ _ => rfl, fun _ _ => rfl, fun _ _ => rfl, fun _ _ _ => rfl,
   fun _ step h n s hints => runWithRetries_preserves_state step h n s hints⟩

/-- Witness for C7: concrete invocations of all four tools from the
actual tables, and a full 3-attempt retry run, leave the initial
program state unchanged. -/
theorem C7_tables_read_only_witness :
    (get_appointment_details_st initState patient).2 = initState
    ∧ (check_doctor_availability_st initState "Dr. Smith").2 = initState
    ∧ (get_appointment_status_st initState "APT-12345").2 = initState
    ∧ (validate_patient_appointment_st initState "APT-12345" "P001").2 = initState
    ∧ (runWithRetries alwaysRetryStep initState [] maxAttempts).2 = initState :=
  ⟨C7_tables_read_only.1 initState patient,
   C7_tables_read_only.2.1 initState "Dr. Smith",
   C7_tables_read_only.2.2.1 initState "APT-12345",
   C7_tables_read_only.2.2.2.1 initState "APT-12345" "P001",
   C7_tables_read_only.2.2.2.2 HealthcareResponseModel alwaysRetryStep
     alwaysRetryStep_preserves_state maxAttempts initState []⟩

/-- C8: for every patient record whose appointments list is present
and non-empty, and whose first appointment has an entry in
`appointment_db`, `get_appointment_details` returns the formatted
string describing that first appointment, built from the fields of the
table entry. -/
theorem C8_first_appointment_details :
    ∀ (p : PatientDetails) (a : Appointment) (rest : List Appointment) (e : ApptInfo),
      p.appointments = some (a :: rest) →
      appointment_db a.appointment_id = some e →
      get_appointment_details p =
        "Appointment " ++ a.appointment_id ++ ": " ++ e.date
          ++ " at " ++ e.time ++ " with " ++ e.doctor ++ " in " ++ e.department := by
  intro p a rest e h1 h2
  simp [get_appointment_details, get_appointment_details_core, h1, h2, pyStrOfOpt]

/-- Witness for C8: the fixture patient has first appointment "A001",
present in `appointment_db`, and the tool formats it from that entry. -/
theorem C8_first_appointment_details_witness :
    get_appointment_details patient =
      "Appointment A001: 2024-12-15 at 10:00 AM with Dr. Smith in Cardiology" := by
  have h := C8_first_appointment_details patient
    { appointment_id := "A001", date := ⟨2024, 12, 15⟩, time := "10:00 AM",
      doctor_name := "Dr. Smith", department := "Cardiology", status := "scheduled" }
    [] ⟨"2024-12-15", "10:00 AM", "Dr. Smith", "Cardiology", "scheduled"⟩
    rfl (by decide)
  simpa using h

/-- C9: `get_appointment_details` is total and never signals failure:
a record with `None` appointments or an empty appointments list yields
the literal "No appointments found", and a first appointment whose id
is absent from `appointment_db` yields the formatted string with
"None" in the date, time, doctor and department positions. -/
theorem C9_get_appointment_details_total :
    ∀ (p : PatientDetails),
      (p.appointments = none → get_appointment_details p = "No appointments found")
      ∧ (p.appointments = some [] → get_appointment_details p = "No appointments found")
      ∧ (∀ (a : Appointment) (rest : List Appointment),
          p.appointments = some (a :: rest) →
          appointment_db a.appointment_id = none →
          get_appointment_details p =
            "Appointment " ++ a.appointment_id ++ ": None at None with None in None") := by
  intro p
  refine ⟨?_, ?_, ?_⟩
  · intro h; simp [get_appointment_details, get_appointment_details_core, h]
  · intro h; simp [get_appointment_details, get_appointment_details_core, h]
  · intro a rest h1 h2
    simp only [get_appointment_details, get_appointment_details_core, h1, h2,
      Option.map_none, pyStrOfOpt]
    simp only [String.append_assoc]
    congr 1

/-- Witness for C9: concrete records exercising all three branches —
no appointments, an empty appointments list, and a first appointment
with the unknown id "A999". -/
theorem C9_get_appointment_details_total_witness :
    get_appointment_details patient_validation = "No appointments found"
    ∧ get_appointment_details patient_empty_appointments = "No appointments found"
    ∧ get_appointment_details patient_unknown_appointment =
        "Appointment A999: None at None with None in None" := by
  refine ⟨(C9_get_appointment_details_total patient_validation).1 rfl,
    (C9_get_appointment_details_total patient_empty_appointments).2.1 rfl, ?_⟩
  have h := (C9_get_appointment_details_total patient_unknown_appointment).2.2
    unknown_appointment [] rfl (by decide)
  simpa using h

/-- C10: `validate_patient_appointment` checks existence before
ownership: for an id absent from `comprehensive_appointment_db` it
signals the not-found retryable failure whatever the supplied patient
id, and it returns a value exactly when the id is in the table and the
entry's `patient_id` equals the supplied one, in which case the value
is the verification string. -/
theorem C10_validate_existence_before_ownership :
    ∀ (appointment_id patient_id : String),
      (comprehensive_appointment_db appointment_id = none →
        validate_patient_appointment appointment_id patient_id = .error
          ("Appointment " ++ appointment_id
            ++ " not found. Please verify the appointment ID format."))
      ∧ ((∃ v, validate_patient_appointment appointment_id patient_id = .ok v) ↔
          (∃ info, comprehensive_appointment_db appointment_id = some info
            ∧ info.patient_id = patient_id))
      ∧ (∀ (info : ComprehensiveApptInfo),
          comprehensive_appointment_db appointment_id = some info →
          info.patient_id = patient_id →
          validate_patient_appointment appointment_id patient_id =
            .ok ("Appointment " ++ appointment_id
              ++ " verified for patient " ++ patient_id)) := by
  intro appointment_id patient_id
  refine ⟨?_, ?_, ?_⟩
  · intro h
    simp [validate_patient_appointment, validate_patient_appointment_core, h]
  · cases h : comprehensive_appointment_db appointment_id with
    | none =>
      simp [validate_patient_appointment, validate_patient_appointment_core, h]
    | some info =>
      by_cases hp : info.patient_id = patient_id <;>
        simp [validate_patient_appointment, validate_patient_appointment_core, h, hp]
  · intro info h hp
    simp [validate_patient_appointment, validate_patient_appointment_core, h, hp]

/-- Witness for C10: the unknown id "APT-00001" yields the not-found
failure regardless of the patient, and the known pair
("APT-12345", "P001") yields the verification string. -/
theorem C10_validate_existence_before_ownership_witness :
    comprehensive_appointment_db "APT-00001" = none
    ∧ validate_patient_appointment "APT-00001" "P001" = .error
        "Appointment APT-00001 not found. Please verify the appointment ID format."
    ∧ validate_patient_appointment "APT-12345" "P001" = .ok
        "Appointment APT-12345 verified for patient P001" := by
  refine ⟨by decide, ?_, ?_⟩
  · have h := (C10_validate_existence_before_ownership "APT-00001" "P001").1 (by decide)
    simpa using h
  · have h := (C10_validate_existence_before_ownership "APT-12345" "P001").2.2
      ⟨"2024-12-15", "10:00 AM", "Dr. Smith", "Cardiology", "scheduled", "P001"⟩
      (by decide) (by decide)
    simpa using h

/-- Witness for C2: instantiating the lookup characterisation at the
known id "APT-12345". -/
theorem C2_get_appointment_status_lookup_witness :
    (∃ v, get_appointment_status "APT-12345" = .ok v)
    ∧ (comprehensive_appointment_db "APT-12345").isSome = true :=
  ⟨(C2_get_appointment_status_lookup.1 "APT-12345").mpr (by decide), by decide⟩

/-- Witness for the amended C4: the banana candidate has every
declared field present, so validation accepts it. -/
theorem C4_required_fields_characterise_validation_witness :
    (validateHealthcareResponse bananaCandidate).isSome = true :=
  (C4_required_fields_characterise_validation bananaCandidate).mpr
    ⟨rfl, rfl, rfl, rfl, rfl⟩

/-- Witness for C6: double rendering of the fixture patient record. -/
theorem C6_add_patient_context_deterministic_witness :
    (add_patient_context ⟨patient⟩).1
        = (add_patient_context (add_patient_context ⟨patient⟩).2).1
    ∧ ((add_patient_context ⟨patient⟩).1).data
        = ((add_patient_context (add_patient_context ⟨patient⟩).2).1).data
    ∧ (add_patient_context (add_patient_context ⟨patient⟩).2).2 = ⟨patient⟩ :=
  C6_add_patient_context_deterministic patient
